import Mathlib

/-!
Verification of the SpaTracker2 PLY export/import pipeline
(`export_ply.py` and `blender_addon/import_spatracker2_ply.py`).

Modelling conventions:
* Positions travel through the codec as IEEE-754 binary32 values; we
  represent such a value by its 32-bit pattern (a `Nat`, meaningful when
  `< 2^32`).  `np.array(v, dtype='<f4').tobytes()` and
  `struct.unpack('<f', f.read(4))` are inverse little-endian byte codecs
  on these patterns.  The float64→float32 truncation performed by the
  writer happens when the pattern is formed, so round-trip statements are
  "at float32 precision", exactly as the code provides.
* Real arithmetic (depth values, intrinsics, colormap, scale) is embedded
  in `ℚ`.  Division by zero yields `0` in `ℚ` where Python floats would
  give `inf`/`nan`; no claim exercises a zero divisor (the spec requires
  `fx, fy > 0`).
* A PLY file is modelled as the list of ASCII header lines preceding
  `end_header` plus the list of body bytes.  The reader's
  `.decode('ascii').strip()` removes the line terminator, which the
  line-based model already excludes.
* `uint8` casts (`astype(np.uint8)`) truncate toward zero; every value so
  cast in this code base is non-negative, hence modelled by `Rat.floor`.
-/

namespace SpaT2

/-! ### Decimal numerals: `str(n)` as used by `f"element vertex {len(vertices)}"`,
and `int(s)` as used by `int(line.split()[-1])`. -/

/-- The decimal digit characters emitted by Python's `str` on naturals. -/
def digitChar : Nat → Char
  | 0 => '0'
  | 1 => '1'
  | 2 => '2'
  | 3 => '3'
  | 4 => '4'
  | 5 => '5'
  | 6 => '6'
  | 7 => '7'
  | 8 => '8'
  | _ => '9'

/-- Decimal digit list of a natural number, most significant first (`str(n)`). -/
def natDigits (n : Nat) : List Char :=
  if _h : n < 10 then [digitChar n]
  else natDigits (n / 10) ++ [digitChar (n % 10)]
termination_by n
decreasing_by exact Nat.div_lt_self (by omega) (by omega)

/-- `str(n)` for a natural number. -/
def natToStr (n : Nat) : String := ⟨natDigits n⟩

/-- Characters accepted as decimal digits by `int`. -/
def isDigitChar (c : Char) : Bool := 48 ≤ c.toNat && c.toNat ≤ 57

/-- Value of a decimal digit string, `none` on any non-digit character. -/
def digitsVal (cs : List Char) : Option Nat :=
  cs.foldl
    (fun acc c =>
      acc.bind (fun a => if isDigitChar c then some (10 * a + (c.toNat - 48)) else none))
    (some 0)

/-- Python `int(s)` on the token strings appearing in PLY headers: fails
(raises `ValueError`, modelled as `none`) on the empty string or on any
non-digit character. -/
def pyInt (cs : List Char) : Option Nat :=
  if cs.isEmpty then none else digitsVal cs

/-! ### Python string helpers used by `parse_ply_file` -/

/-- `s.startswith(pre)`. -/
def pyStartswith (s pre : String) : Bool := pre.data.isPrefixOf s.data

/-- Helper for `str.split()`: accumulate the current token, break on spaces. -/
def splitTokensAux : List Char → List Char → List (List Char)
  | [], acc => if acc.isEmpty then [] else [acc]
  | c :: cs, acc =>
    if c = ' ' then
      if acc.isEmpty then splitTokensAux cs [] else acc :: splitTokensAux cs []
    else splitTokensAux cs (acc ++ [c])

/-- Python `s.split()` (whitespace-separated tokens, empties dropped);
the headers of interest only use the space character. -/
def splitTokens (s : String) : List (List Char) := splitTokensAux s.data []

/-! ### The PLY codec

`write_ply_with_colors` (export_ply.py lines 25-54) and
`parse_ply_file` (import_spatracker2_ply.py lines 128-169). -/

/-- A binary-little-endian PLY file: the ASCII header lines before
`end_header`, and the raw bytes that follow the `end_header` line. -/
structure PlyFile where
  headerLines : List String
  body : List Nat
  deriving DecidableEq

/-- The header written by `write_ply_with_colors` (the f-string at
export_ply.py lines 36-46), minus the final `end_header` marker line. -/
def plyHeaderLines (n : Nat) : List String :=
  ["ply",
   "format binary_little_endian 1.0",
   "element vertex " ++ natToStr n,
   "property float x",
   "property float y",
   "property float z",
   "property uchar red",
   "property uchar green",
   "property uchar blue"]

/-- `np.array(v, dtype='<f4').tobytes()` on one float32 value: the four
little-endian bytes of its bit pattern. -/
def encF32 (x : Nat) : List Nat :=
  [x % 256, x / 2 ^ 8 % 256, x / 2 ^ 16 % 256, x / 2 ^ 24 % 256]

/-- One binary vertex record as written by the loop at export_ply.py
lines 50-54: three little-endian float32 positions followed by three
`uint8` color bytes (`np.array(c, dtype='u1')` wraps modulo 256). -/
def encRecord (vc : (Nat × Nat × Nat) × (Nat × Nat × Nat)) : List Nat :=
  encF32 vc.1.1 ++ encF32 vc.1.2.1 ++ encF32 vc.1.2.2 ++
    [vc.2.1 % 256, vc.2.2.1 % 256, vc.2.2.2 % 256]

/-- `write_ply_with_colors(filepath, vertices, colors)`: writes the header,
then one record per element of `zip(vertices, colors)` (so the shorter of
the two sequences bounds the number of records). -/
def write_ply_with_colors (vertices colors : List (Nat × Nat × Nat)) : PlyFile :=
  { headerLines := plyHeaderLines vertices.length
    body := (vertices.zip colors).flatMap encRecord }

/-- One step of the header loop at import_spatracker2_ply.py lines 146-150:
`element vertex` lines update the vertex count via `int(line.split()[-1])`
(whose failure aborts the parse), `property uchar red` sets the color flag. -/
def parseHeaderStep (st : Option (Nat × Bool)) (line : String) : Option (Nat × Bool) :=
  match st with
  | none => none
  | some (n, hc) =>
    if pyStartswith line "element vertex" then
      match (splitTokens line).getLast? with
      | none => none
      | some tok => (pyInt tok).map (fun k => (k, hc))
    else if pyStartswith line "property uchar red" then some (n, true)
    else some (n, hc)

/-- Header parsing of `parse_ply_file`: `num_vertices` starts at `0` and
`has_color` at `False` (lines 143-144). -/
def parseHeader (headerLines : List String) : Option (Nat × Bool) :=
  headerLines.foldl parseHeaderStep (some (0, false))

/-- Parsed color: `(r/255.0, g/255.0, b/255.0, 1.0)`. -/
abbrev ColorRGBA := ℚ × ℚ × ℚ × ℚ

/-- `struct.unpack('<f', f.read(4))`: four bytes give one float32 bit
pattern; fewer than four remaining bytes raise `struct.error` (`none`). -/
def readF32 : List Nat → Option (Nat × List Nat)
  | b0 :: b1 :: b2 :: b3 :: rest =>
    some (b0 + 2 ^ 8 * b1 + 2 ^ 16 * b2 + 2 ^ 24 * b3, rest)
  | _ => none

/-- The vertex-reading loop of `parse_ply_file` (lines 153-167): for each
of the `n` declared vertices read three float32 positions, then either
three color bytes (normalised to `[0,1]` with alpha `1.0`) or, without
declared colors, synthesize opaque white.  Trailing bytes are ignored. -/
def readVertexRows : Nat → Bool → List Nat → Option (List (Nat × Nat × Nat) × List ColorRGBA)
  | 0, _, _ => some ([], [])
  | n + 1, hc, bs =>
    match readF32 bs with
    | none => none
    | some (x, bs1) =>
      match readF32 bs1 with
      | none => none
      | some (y, bs2) =>
        match readF32 bs2 with
        | none => none
        | some (z, bs3) =>
          if hc then
            match bs3 with
            | r :: g :: b :: bs4 =>
              (readVertexRows n hc bs4).map
                (fun vc => ((x, y, z) :: vc.1,
                  ((r : ℚ) / 255, (g : ℚ) / 255, (b : ℚ) / 255, 1) :: vc.2))
            | _ => none
          else
            (readVertexRows n hc bs3).map
              (fun vc => ((x, y, z) :: vc.1, ((1 : ℚ), 1, 1, 1) :: vc.2))

/-- `parse_ply_file(filepath)` (import_spatracker2_ply.py lines 128-169). -/
def parse_ply_file (f : PlyFile) : Option (List (Nat × Nat × Nat) × List ColorRGBA) :=
  (parseHeader f.headerLines).bind (fun nh => readVertexRows nh.1 nh.2 f.body)

/-- The color normalisation applied by the reader at line 165. -/
def normColor (c : Nat × Nat × Nat) : ColorRGBA :=
  ((c.1 : ℚ) / 255, (c.2.1 : ℚ) / 255, (c.2.2 : ℚ) / 255, 1)

/-- Bytes per binary record: 15 with colors, 12 without. -/
def recordBytes (hc : Bool) : Nat := if hc then 15 else 12

/-! ### Reconstruction pipeline (`export_ply.py`), embedded over `ℚ` -/

/-- A 3D point in memory (before float32 truncation at serialization). -/
abbrev PointQ := ℚ × ℚ × ℚ

/-- An RGB color with `uint8` channels. -/
abbrev RGB := Nat × Nat × Nat

/-- A 3×3 camera intrinsics matrix. -/
structure Mat3 where
  m00 : ℚ
  m01 : ℚ
  m02 : ℚ
  m10 : ℚ
  m11 : ℚ
  m12 : ℚ
  m20 : ℚ
  m21 : ℚ
  m22 : ℚ
  deriving DecidableEq

/-- The default intrinsics of export_ply.py line 200:
`[[256, 0, 128], [0, 256, 96], [0, 0, 1]]`. -/
def defaultIntrinsics : Mat3 := ⟨256, 0, 128, 0, 256, 96, 0, 0, 1⟩

/-- The color-source policy (`--color video|depth|white`). -/
inductive ColorSource
  | video
  | depth
  | white
  deriving DecidableEq

/-- Pinhole unprojection, export_ply.py lines 106-108:
`X = (px - cx) * d / fx`, `Y = (py - cy) * d / fy`, `Z = d`,
with `fx = intr[0,0]`, `fy = intr[1,1]`, `cx = intr[0,2]`, `cy = intr[1,2]`. -/
def unproject (intr : Mat3) (px py d : ℚ) : PointQ :=
  ((px - intr.m02) * d / intr.m00, (py - intr.m12) * d / intr.m11, d)

/-- Componentwise scaling (`vertices * scale`, `coords[t] * scale`). -/
def scaleP (s : ℚ) (p : PointQ) : PointQ := (p.1 * s, p.2.1 * s, p.2.2 * s)

/-- Row-major pixel enumeration `(y, x, depth[y][x])` of an H×W depth grid,
as produced by `np.indices` plus boolean masking. -/
def gridPixels (depth : List (List ℚ)) : List (Nat × Nat × ℚ) :=
  depth.enum.flatMap (fun row => row.2.enum.map (fun cell => (row.1, cell.1, cell.2)))

/-- `l.min()` of a non-empty numpy array (junk value `0` on the empty list,
where numpy would raise). -/
def minD : List ℚ → ℚ
  | [] => 0
  | x :: xs => xs.foldl min x

/-- `l.max()` of a non-empty numpy array (junk value `0` on the empty list). -/
def maxD : List ℚ → ℚ
  | [] => 0
  | x :: xs => xs.foldl max x

/-- `np.abs`. -/
def npAbs (q : ℚ) : ℚ := if q < 0 then -q else q

/-- `np.clip(x, lo, hi)`: `lo` when `x < lo`, `hi` when `x > hi`, else `x`. -/
def clipQ (x lo hi : ℚ) : ℚ := if x < lo then lo else if hi < x then hi else x

/-- The `1e-8` epsilon of export_ply.py line 60. -/
def epsQ : ℚ := 1 / 100000000

/-- `astype(np.uint8)` on a value in `[0, 255]`: truncation toward zero. -/
def u8 (q : ℚ) : Nat := (⌊q⌋).toNat

/-- The jet-colormap channels of export_ply.py lines 63-68, applied to one
already-normalised depth value: each channel is
`clip(1.5 - 4*|nd - breakpoint|, 0, 1) * 255` with breakpoints
`0.75` (red), `0.5` (green), `0.25` (blue). -/
def jetRGB (nd : ℚ) : RGB :=
  (u8 (clipQ (3 / 2 - 4 * npAbs (nd - 3 / 4)) 0 1 * 255),
   u8 (clipQ (3 / 2 - 4 * npAbs (nd - 1 / 2)) 0 1 * 255),
   u8 (clipQ (3 / 2 - 4 * npAbs (nd - 1 / 4)) 0 1 * 255))

/-- `depth_to_color(depth, min_depth, max_depth)` on one scalar
(export_ply.py lines 57-68): normalise, clip to `[0,1]`, apply jet. -/
def depth_to_color (d dmin dmax : ℚ) : RGB :=
  jetRGB (clipQ ((d - dmin) / (dmax - dmin + epsQ)) 0 1)

/-- Channel-wise maximum of a video frame (`video_frame.max()`), junk `0`
on an empty frame where numpy would raise. -/
def frameMaxNat (vf : List (List RGB)) : Nat :=
  vf.foldl (fun acc row => row.foldl (fun a c => max a (max c.1 (max c.2.1 c.2.2))) acc) 0

/-- The renormalisation at export_ply.py lines 116-117: a frame whose
maximum is `≤ 1.0` is multiplied by 255.  Video frames are modelled after
the exporter's preprocessing (lines 183-190), i.e. as `uint8` grids in
H×W×C layout; the channel-first transpose branch is therefore already
absorbed into the representation. -/
def normFrame (vf : List (List RGB)) : List (List RGB) :=
  if frameMaxNat vf ≤ 1 then
    vf.map (fun row => row.map (fun c => (c.1 * 255, c.2.1 * 255, c.2.2 * 255)))
  else vf

/-- `video_frame[y, x]` (junk black for out-of-range indices, where numpy
would raise; the exporter always samples inside the frame). -/
def pixelAt (vf : List (List RGB)) (y x : Nat) : RGB :=
  ((vf.getD y []).getD x (0, 0, 0))

/-- `depth_to_point_cloud(depth, intrinsics, color_source, video_frame, scale)`
(export_ply.py lines 71-134): unproject every strictly-positive-depth pixel,
scale, and resolve one color per kept pixel. -/
def depth_to_point_cloud (depth : List (List ℚ)) (intr : Mat3)
    (colorSource : ColorSource) (videoFrame : Option (List (List RGB)))
    (scale : ℚ) : List PointQ × List RGB :=
  let valid := (gridPixels depth).filter (fun p => decide (0 < p.2.2))
  if valid.isEmpty then ([], [])
  else
    let verts := valid.map (fun p => scaleP scale (unproject intr (p.2.1 : ℚ) (p.1 : ℚ) p.2.2))
    let cols :=
      match colorSource, videoFrame with
      | .video, some vf =>
        let nf := normFrame vf
        valid.map (fun p => pixelAt nf p.1 p.2.1)
      | .video, none => valid.map (fun _ => (255, 255, 255))
      | .depth, _ =>
        let zs := valid.map (fun p => p.2.2)
        valid.map (fun p => depth_to_color p.2.2 (minD zs) (maxD zs))
      | .white, _ => valid.map (fun _ => (255, 255, 255))
    (verts, cols)

/-! ### The sequence exporter (`export_ply_sequence`, export_ply.py lines 137-281) -/

/-- The two accepted intrinsics shapes: one shared 3×3 matrix (`ndim == 2`)
or a stack of per-frame matrices (`ndim == 3`). -/
inductive IntrData
  | shared (m : Mat3)
  | perFrame (ms : List Mat3)
  deriving DecidableEq

/-- The dataset arrays pulled out of the NPZ file (lines 153-157).  Video
frames are modelled post-preprocessing (uint8, H×W×C). -/
structure Dataset where
  coords : Option (List (List PointQ))
  video : Option (List (List (List RGB)))
  depths : Option (List (List (List ℚ)))
  intrinsics : Option IntrData
  visibs : Option (List (List ℚ))

/-- Intrinsics selection at export_ply.py lines 193-200.  Note that the
source's conditional `intrinsics[0] if intrinsics.shape[0] == 1 else
intrinsics[0]` returns `intrinsics[0]` in both branches; it is kept here
verbatim.  (`ms.headD` stands for `intrinsics[0]`; numpy would raise on an
empty stack.) -/
def selectIntr : Option IntrData → Mat3
  | none => defaultIntrinsics
  | some (.shared m) => m
  | some (.perFrame ms) =>
    if ms.length = 1 then ms.headD defaultIntrinsics else ms.headD defaultIntrinsics

/-- Observable file-system effects of one export run, in program order. -/
inductive Event
  | mkdirTrajectory
  | mkdirPointcloud
  | writeTraj (t : Nat) (verts : List PointQ) (cols : List RGB)
  | writePC (t : Nat) (verts : List PointQ) (cols : List RGB)
  | writeMetadata (fps : Nat) (scale : ℚ) (colorSource : ColorSource)
      (totalFrames : Nat) (trajPoints : Option Nat)
  deriving DecidableEq

/-- Outcome of `export_ply_sequence`: the emitted effects, and the raised
error if any (raising prevents all later effects). -/
structure ExportRun where
  events : List Event
  err : Option String
  deriving DecidableEq

/-- Frame count `T` (lines 163-166): `depths.shape[0]` when depth data is
present, else `coords.shape[0]`. -/
def numFrames (ds : Dataset) : Nat :=
  match ds.depths with
  | some d => d.length
  | none => (ds.coords.getD []).length

/-- `video_colors` (lines 179-190): present only when the color source is
`video` and the dataset has video; preprocessing to uint8 H×W×C is absorbed
into the representation. -/
def videoColors (ds : Dataset) (colorSource : ColorSource) : Option (List (List (List RGB))) :=
  match colorSource, ds.video with
  | .video, some v => some v
  | _, _ => none

/-- Per-channel mean color of a frame
(`video_colors[t].mean(axis=(0,1)).astype(np.uint8)`); the float mean
followed by the uint8 cast is truncating division by the pixel count. -/
def meanRGB (vf : List (List RGB)) : RGB :=
  let n := (vf.map List.length).sum
  let s := vf.foldl
    (fun acc row => row.foldl
      (fun a c => (a.1 + c.1, a.2.1 + c.2.1, a.2.2 + c.2.2)) acc) (0, 0, 0)
  (s.1 / n, s.2.1 / n, s.2.2 / n)

/-- Trajectory-frame colors (export_ply.py lines 210-219): mean video color
tiled over the `N` points, or the jet colormap on the scaled z coordinate
normalised by the scaled sequence-wide z extrema, or constant white. -/
def trajColors (coords : List (List PointQ)) (videoCols : Option (List (List (List RGB))))
    (colorSource : ColorSource) (scale : ℚ) (t : Nat) : List RGB :=
  let N := (coords.headD []).length
  match colorSource, videoCols with
  | .video, some vc => List.replicate N (meanRGB (vc.getD t []))
  | .depth, _ =>
    let zsAll := coords.flatMap (fun fr => fr.map (fun p => p.2.2))
    ((coords.getD t []).map (fun p => p.2.2 * scale)).map
      (fun z => depth_to_color z (minD zsAll * scale) (maxD zsAll * scale))
  | _, _ => List.replicate N (255, 255, 255)

/-- The visibility filter at export_ply.py lines 221-226: threshold the
frame's mask at `0.5`; apply it to points and colors only when its length
matches the frame's point count, otherwise leave both untouched. -/
def applyVisib (visibs : Option (List (List ℚ))) (t : Nat)
    (verts : List PointQ) (cols : List RGB) : List PointQ × List RGB :=
  match visibs with
  | none => (verts, cols)
  | some vs =>
    let mask := (vs.getD t []).map (fun q => decide ((1 : ℚ) / 2 < q))
    if mask.length = verts.length then
      ((verts.zip mask).filterMap (fun vb => if vb.2 then some vb.1 else none),
       (cols.zip mask).filterMap (fun cb => if cb.2 then some cb.1 else none))
    else (verts, cols)

/-- The trajectory export loop (export_ply.py lines 203-233): one
`write_ply_with_colors` call per frame index, unconditionally. -/
def trajEvents (ds : Dataset) (colorSource : ColorSource) (scale : ℚ) : List Event :=
  match ds.coords with
  | none => []
  | some coords =>
    (List.range (numFrames ds)).map (fun t =>
      let fc := (coords.getD t []).map (scaleP scale)
      let cols := trajColors coords (videoColors ds colorSource) colorSource scale t
      let filtered := applyVisib ds.visibs t fc cols
      Event.writeTraj t filtered.1 filtered.2)

/-- The dense export loop (export_ply.py lines 236-259): a file is written
only under the guard `if len(vertices) > 0` (lines 253-256). -/
def denseEvents (ds : Dataset) (colorSource : ColorSource) (scale : ℚ) : List Event :=
  match ds.depths with
  | none => []
  | some depthArr =>
    (List.range depthArr.length).filterMap (fun t =>
      let vf := (videoColors ds colorSource).map (fun vc => vc.getD t [])
      let pc := depth_to_point_cloud (depthArr.getD t []) (selectIntr ds.intrinsics)
        colorSource vf scale
      if 0 < pc.1.length then some (Event.writePC t pc.1 pc.2) else none)

/-- `export_ply_sequence` (export_ply.py lines 137-281): raise when both
`coords` and `depths` are absent (before creating any directory or file),
otherwise create both sub-directories, run both per-frame loops, and write
the metadata record. -/
def export_ply_sequence (ds : Dataset) (fps : Nat) (scale : ℚ)
    (colorSource : ColorSource) : ExportRun :=
  match ds.depths, ds.coords with
  | none, none => { events := [], err := some "NPZ file missing both coords and depths arrays" }
  | _, _ =>
    { events :=
        [Event.mkdirTrajectory, Event.mkdirPointcloud]
          ++ trajEvents ds colorSource scale
          ++ denseEvents ds colorSource scale
          ++ [Event.writeMetadata fps scale colorSource (numFrames ds)
                (ds.coords.map (fun c => (c.headD []).length))]
      err := none }

/-- Recogniser for trajectory-file writes. -/
def Event.isTrajWrite : Event → Bool
  | .writeTraj _ _ _ => true
  | _ => false

/-- Recogniser for dense-point-cloud-file writes. -/
def Event.isDenseWrite : Event → Bool
  | .writePC _ _ _ => true
  | _ => false

/-! ### Helper lemmas: decimal numerals round-trip through the header -/

theorem natDigits_ne_nil (n : Nat) : natDigits n ≠ [] := by
  rw [natDigits]
  split
  · simp
  · simp

theorem digitChar_spec (k : Nat) (hk : k < 10) :
    isDigitChar (digitChar k) = true ∧ (digitChar k).toNat - 48 = k ∧ digitChar k ≠ ' ' := by
  interval_cases k <;> exact ⟨by decide, by decide, by decide⟩

theorem natDigits_mem (n : Nat) :
    ∀ c ∈ natDigits n, isDigitChar c = true ∧ c ≠ ' ' := by
  induction n using Nat.strong_induction_on with
  | _ n ih =>
    rw [natDigits]
    split
    · rename_i h
      intro c hc
      simp only [List.mem_singleton] at hc
      subst hc
      exact ⟨(digitChar_spec n h).1, (digitChar_spec n h).2.2⟩
    · rename_i h
      intro c hc
      rcases List.mem_append.1 hc with h1 | h2
      · exact ih (n / 10) (Nat.div_lt_self (by omega) (by omega)) c h1
      · simp only [List.mem_singleton] at h2
        subst h2
        have h10 : n % 10 < 10 := Nat.mod_lt _ (by omega)
        exact ⟨(digitChar_spec _ h10).1, (digitChar_spec _ h10).2.2⟩

theorem digitsVal_append (cs : List Char) (c : Char) :
    digitsVal (cs ++ [c]) =
      (digitsVal cs).bind
        (fun a => if isDigitChar c then some (10 * a + (c.toNat - 48)) else none) := by
  simp [digitsVal, List.foldl_append]

theorem digitsVal_natDigits (n : Nat) : digitsVal (natDigits n) = some n := by
  induction n using Nat.strong_induction_on with
  | _ n ih =>
    rw [natDigits]
    split
    · rename_i h
      have hs := digitChar_spec n h
      simp [digitsVal, hs.1, hs.2.1]
    · rename_i h
      have h10 : n % 10 < 10 := Nat.mod_lt _ (by omega)
      have hs := digitChar_spec _ h10
      rw [digitsVal_append, ih (n / 10) (Nat.div_lt_self (by omega) (by omega))]
      simp [hs.1, hs.2.1]
      omega

theorem pyInt_natDigits (n : Nat) : pyInt (natDigits n) = some n := by
  have h := natDigits_ne_nil n
  simp [pyInt, List.isEmpty_iff, h, digitsVal_natDigits]

/-! ### Helper lemmas: Python string helpers on the written header -/

theorem isPrefixOf_self_append (l m : List Char) : l.isPrefixOf (l ++ m) = true := by
  induction l with
  | nil => simp [List.isPrefixOf]
  | cons c cs ih => simp [List.isPrefixOf, ih]

theorem splitTokensAux_nospace (d : List Char) (acc : List Char)
    (hd : ∀ c ∈ d, c ≠ ' ') :
    splitTokensAux d acc = if (acc ++ d).isEmpty then [] else [acc ++ d] := by
  induction d generalizing acc with
  | nil => simp [splitTokensAux]
  | cons c cs ih =>
    have hc : c ≠ ' ' := hd c (List.mem_cons_self c cs)
    have hcs : ∀ x ∈ cs, x ≠ ' ' := fun x hx => hd x (List.mem_cons_of_mem c hx)
    rw [splitTokensAux, if_neg hc, ih (acc ++ [c]) hcs]
    simp

theorem data_element_line (n : Nat) :
    ("element vertex " ++ natToStr n).data = "element vertex ".data ++ natDigits n := rfl

theorem pyStartswith_element_line (n : Nat) :
    pyStartswith ("element vertex " ++ natToStr n) "element vertex" = true := by
  have h : "element vertex ".data = "element vertex".data ++ [' '] := rfl
  rw [pyStartswith, data_element_line, h, List.append_assoc]
  exact isPrefixOf_self_append _ _

theorem splitTokens_element_line (n : Nat) :
    splitTokens ("element vertex " ++ natToStr n) =
      ["element".data, "vertex".data, natDigits n] := by
  have hsp : ∀ c ∈ natDigits n, ¬ c = ' ' := fun c hc => (natDigits_mem n c hc).2
  have hne := natDigits_ne_nil n
  rw [splitTokens, data_element_line]
  have h15 : "element vertex ".data =
      ['e', 'l', 'e', 'm', 'e', 'n', 't', ' ', 'v', 'e', 'r', 't', 'e', 'x', ' '] := rfl
  rw [h15]
  have hie : (natDigits n).isEmpty = false := by simp [List.isEmpty_iff, hne]
  simp +decide only [List.cons_append, List.nil_append, splitTokensAux,
    splitTokensAux_nospace _ _ hsp, hie, if_true, if_false, List.append_eq, if_neg, if_pos]

theorem readF32_encF32 (x : Nat) (rest : List Nat) (hx : x < 2 ^ 32) :
    readF32 (encF32 x ++ rest) = some (x, rest) := by
  simp only [encF32, List.cons_append, List.nil_append, readF32, Option.some.injEq,
    Prod.mk.injEq]
  exact ⟨by omega, trivial⟩

theorem readF32_some_length (bs : List Nat) (x : Nat) (rest : List Nat)
    (h : readF32 bs = some (x, rest)) : bs.length = rest.length + 4 := by
  rcases bs with _ | ⟨b0, _ | ⟨b1, _ | ⟨b2, _ | ⟨b3, tl⟩⟩⟩⟩ <;>
    simp [readF32] at h
  rcases h with ⟨h1, h2⟩
  subst h2
  simp

theorem readVertexRows_encRecords (verts cols : List (Nat × Nat × Nat))
    (hlen : verts.length = cols.length)
    (hv : ∀ v ∈ verts, v.1 < 2 ^ 32 ∧ v.2.1 < 2 ^ 32 ∧ v.2.2 < 2 ^ 32)
    (hcb : ∀ c ∈ cols, c.1 < 256 ∧ c.2.1 < 256 ∧ c.2.2 < 256) :
    readVertexRows verts.length true ((verts.zip cols).flatMap encRecord) =
      some (verts, cols.map normColor) := by
  induction verts generalizing cols with
  | nil =>
    cases cols with
    | nil => simp [readVertexRows]
    | cons c cs => simp at hlen
  | cons v vs ih =>
    cases cols with
    | nil => simp at hlen
    | cons c cs =>
      obtain ⟨hv1, hvs⟩ := List.forall_mem_cons.1 hv
      obtain ⟨hc1, hcs⟩ := List.forall_mem_cons.1 hcb
      have hlen' : vs.length = cs.length := by simpa using hlen
      have e1 : c.1 % 256 = c.1 := Nat.mod_eq_of_lt hc1.1
      have e2 : c.2.1 % 256 = c.2.1 := Nat.mod_eq_of_lt hc1.2.1
      have e3 : c.2.2 % 256 = c.2.2 := Nat.mod_eq_of_lt hc1.2.2
      simp only [List.zip_cons_cons, List.flatMap_cons, encRecord, List.append_assoc,
        List.cons_append, List.nil_append, List.length_cons, readVertexRows,
        readF32_encF32 _ _ hv1.1, readF32_encF32 _ _ hv1.2.1, readF32_encF32 _ _ hv1.2.2,
        ih cs hlen' hvs hcs, eq_self_iff_true, if_true, Option.map_some]
      simp [normColor, e1, e2, e3]

theorem readVertexRows_short (n : Nat) (hc : Bool) (bs : List Nat)
    (h : bs.length < recordBytes hc * n) : readVertexRows n hc bs = none := by
  induction n generalizing bs with
  | zero => simp [recordBytes] at h
  | succ n ih =>
    rcases h1 : readF32 bs with _ | ⟨x, bs1⟩
    · simp [readVertexRows, h1]
    · rcases h2 : readF32 bs1 with _ | ⟨y, bs2⟩
      · simp [readVertexRows, h1, h2]
      · rcases h3 : readF32 bs2 with _ | ⟨z, bs3⟩
        · simp [readVertexRows, h1, h2, h3]
        · have l1 := readF32_some_length _ _ _ h1
          have l2 := readF32_some_length _ _ _ h2
          have l3 := readF32_some_length _ _ _ h3
          cases hc with
          | false =>
            have hlt : bs3.length < recordBytes false * n := by
              simp only [recordBytes, if_neg Bool.false_ne_true] at h ⊢
              omega
            simp [readVertexRows, h1, h2, h3, ih bs3 hlt]
          | true =>
            rcases bs3 with _ | ⟨r, _ | ⟨g, _ | ⟨b, bs4⟩⟩⟩
            · simp [readVertexRows, h1, h2, h3]
            · simp [readVertexRows, h1, h2, h3]
            · simp [readVertexRows, h1, h2, h3]
            · have hlt : bs4.length < recordBytes true * n := by
                simp only [recordBytes, eq_self_iff_true, if_true] at h ⊢
                simp only [List.length_cons] at l3
                omega
              simp [readVertexRows, h1, h2, h3, ih bs4 hlt]

theorem flatMap_encRecord_length (l : List ((Nat × Nat × Nat) × (Nat × Nat × Nat))) :
    (l.flatMap encRecord).length = 15 * l.length := by
  induction l with
  | nil => simp
  | cons a as ih => simp [encRecord, encF32, ih]; ring

theorem parseHeader_plyHeaderLines (n : Nat) :
    parseHeader (plyHeaderLines n) = some (n, true) := by
  have he := pyStartswith_element_line n
  have hs := splitTokens_element_line n
  have hp := pyInt_natDigits n
  simp only [parseHeader, plyHeaderLines, List.foldl_cons, List.foldl_nil, parseHeaderStep,
    (by decide : pyStartswith "ply" "element vertex" = false),
    (by decide : pyStartswith "ply" "property uchar red" = false),
    (by decide : pyStartswith "format binary_little_endian 1.0" "element vertex" = false),
    (by decide : pyStartswith "format binary_little_endian 1.0" "property uchar red" = false),
    (by decide : pyStartswith "property float x" "element vertex" = false),
    (by decide : pyStartswith "property float x" "property uchar red" = false),
    (by decide : pyStartswith "property float y" "element vertex" = false),
    (by decide : pyStartswith "property float y" "property uchar red" = false),
    (by decide : pyStartswith "property float z" "element vertex" = false),
    (by decide : pyStartswith "property float z" "property uchar red" = false),
    (by decide : pyStartswith "property uchar red" "element vertex" = false),
    (by decide : pyStartswith "property uchar red" "property uchar red" = true),
    (by decide : pyStartswith "property uchar green" "element vertex" = false),
    (by decide : pyStartswith "property uchar green" "property uchar red" = false),
    (by decide : pyStartswith "property uchar blue" "element vertex" = false),
    (by decide : pyStartswith "property uchar blue" "property uchar red" = false),
    he, hs, hp]
  simp [hs, hp]


/-! ### Claim C1: codec round-trip -/

/-- C1: writing a PointCloudFrame (equal-length positions and colors, any
`N ≥ 0`) with `write_ply_with_colors` and reading it back with
`parse_ply_file` yields the same point count and the same colors exactly
(the reader returns each written byte scaled by `1/255` with alpha `1.0`, an
injective re-encoding, so the color bytes are recovered exactly), and
positions equal to the originals at float32 precision (bit-for-bit equality
of the float32 patterns; no loss beyond the float32 truncation at
serialization). -/
theorem parse_write_roundtrip (verts cols : List (Nat × Nat × Nat))
    (hlen : verts.length = cols.length)
    (hv : ∀ v ∈ verts, v.1 < 2 ^ 32 ∧ v.2.1 < 2 ^ 32 ∧ v.2.2 < 2 ^ 32)
    (hcb : ∀ c ∈ cols, c.1 < 256 ∧ c.2.1 < 256 ∧ c.2.2 < 256) :
    parse_ply_file (write_ply_with_colors verts cols) =
      some (verts, cols.map normColor) := by
  simp only [parse_ply_file, write_ply_with_colors, parseHeader_plyHeaderLines,
    Option.some_bind]
  exact readVertexRows_encRecords verts cols hlen hv hcb

/-- C1 witness: the round trip at a concrete one-point frame. -/
theorem parse_write_roundtrip_example :
    parse_ply_file (write_ply_with_colors [(1, 2, 3)] [(10, 20, 30)]) =
      some ([(1, 2, 3)], [normColor (10, 20, 30)]) := by
  have h := parse_write_roundtrip [(1, 2, 3)] [(10, 20, 30)]
    (by decide) (by decide) (by decide)
  simpa using h

/-! ### Claim C2: exact file layout -/

/-- C2 counterexample: a binary record is 15 bytes (three 4-byte float32
plus three 1-byte uchar), not 18: a one-point frame's body is 15 bytes,
and `15 ≠ 18 * 1`. -/
theorem record_bytes_not_18 :
    (write_ply_with_colors [(0, 0, 0)] [(0, 0, 0)]).body.length = 15 ∧
      ¬ (write_ply_with_colors [(0, 0, 0)] [(0, 0, 0)]).body.length = 18 * 1 := by
  constructor
  · decide
  · decide

/-- C2 (amended): the emitted file is the nine fixed ASCII header lines (the
third declaring `element vertex N` with `N` the point count, as the reader's
own header parse confirms) followed by the `end_header` marker and exactly
`N` binary records of little-endian float32 x, y, z then uint8 r, g, b — 15
bytes per record, so the byte length after `end_header` is `15*N`, with no
trailing data. -/
theorem ply_file_layout (verts cols : List (Nat × Nat × Nat))
    (hlen : verts.length = cols.length) :
    (write_ply_with_colors verts cols).headerLines = plyHeaderLines verts.length ∧
    parseHeader (write_ply_with_colors verts cols).headerLines =
      some (verts.length, true) ∧
    (write_ply_with_colors verts cols).body = (verts.zip cols).flatMap encRecord ∧
    (write_ply_with_colors verts cols).body.length = 15 * verts.length := by
  refine ⟨rfl, ?_, rfl, ?_⟩
  · simp [write_ply_with_colors, parseHeader_plyHeaderLines]
  · have hz : (verts.zip cols).length = verts.length := by
      rw [List.length_zip, hlen, Nat.min_self]
    show ((verts.zip cols).flatMap encRecord).length = 15 * verts.length
    rw [flatMap_encRecord_length, hz]

/-- C2 witness: layout of a concrete one-point file. -/
theorem ply_file_layout_example :
    parseHeader (write_ply_with_colors [(5, 6, 7)] [(8, 9, 10)]).headerLines =
        some (1, true) ∧
      (write_ply_with_colors [(5, 6, 7)] [(8, 9, 10)]).body.length = 15 * 1 := by
  have h := ply_file_layout [(5, 6, 7)] [(8, 9, 10)] (by decide)
  exact ⟨h.2.1, h.2.2.2⟩

/-! ### Claim C3: reader error behaviour -/

/-- C3 counterexample: a file whose header has no recognizable vertex-count
declaration parses successfully to the empty point set instead of failing:
`num_vertices` silently defaults to `0`. -/
theorem parse_missing_count_succeeds :
    parse_ply_file { headerLines := ["ply"], body := [] } = some ([], []) := by
  decide

theorem parseHeader_no_element (hl : List String)
    (h : ∀ l ∈ hl, pyStartswith l "element vertex" = false) :
    ∃ hc, parseHeader hl = some (0, hc) := by
  rw [parseHeader]
  have key : ∀ (hl' : List String),
      (∀ l ∈ hl', pyStartswith l "element vertex" = false) →
      ∀ b, ∃ hc, hl'.foldl parseHeaderStep (some (0, b)) = some (0, hc) := by
    intro hl'
    induction hl' with
    | nil => exact fun _ b => ⟨b, rfl⟩
    | cons l ls ih =>
      intro hno b
      have h1 : pyStartswith l "element vertex" = false :=
        hno l (List.mem_cons_self _ _)
      have h2 : ∀ x ∈ ls, pyStartswith x "element vertex" = false :=
        fun x hx => hno x (List.mem_cons_of_mem _ hx)
      rw [List.foldl_cons]
      by_cases hr : pyStartswith l "property uchar red" = true
      · rw [show parseHeaderStep (some (0, b)) l = some (0, true) by
          simp [parseHeaderStep, h1, hr]]
        exact ih h2 true
      · rw [show parseHeaderStep (some (0, b)) l = some (0, b) by
          simp [parseHeaderStep, h1, hr]]
        exact ih h2 b
  exact key hl h false

/-- C3 (amended): `parse_ply_file` fails whenever the binary body ends before
the declared `vertex_count` records have been consumed (it never silently
truncates or pads the point set), but a header that contains no recognizable
vertex-count declaration is NOT an error: the vertex count silently defaults
to `0` and parsing succeeds, returning an empty point set. -/
theorem parse_truncation_fails_and_missing_count_defaults :
    (∀ hl body n hc, parseHeader hl = some (n, hc) →
      body.length < recordBytes hc * n →
      parse_ply_file { headerLines := hl, body := body } = none) ∧
    (∀ hl body, (∀ l ∈ hl, pyStartswith l "element vertex" = false) →
      parse_ply_file { headerLines := hl, body := body } = some ([], [])) := by
  constructor
  · intro hl body n hc hh hlen
    simp [parse_ply_file, hh, readVertexRows_short n hc body hlen]
  · intro hl body h
    obtain ⟨hc, hh⟩ := parseHeader_no_element hl h
    simp [parse_ply_file, hh, readVertexRows]

/-- C3 witness: a header declaring 2 vertices over an empty body fails to
parse. -/
theorem parse_truncation_example :
    parse_ply_file { headerLines := ["element vertex 2"], body := [] } = none :=
  parse_truncation_fails_and_missing_count_defaults.1 ["element vertex 2"] [] 2 false
    (by decide) (by decide)

/-! ### Claim C9: declared count vs records written -/

/-- C9 counterexample: with a colors sequence longer than the vertices
sequence the declared count (1) equals the number of records written (one
15-byte record) although the two lengths differ, refuting "only when the two
sequences have equal length does the declared count equal the number of
records written". -/
theorem declared_eq_records_with_longer_colors :
    (write_ply_with_colors [(0, 0, 0)] [(1, 2, 3), (4, 5, 6)]).headerLines =
        plyHeaderLines 1 ∧
    (write_ply_with_colors [(0, 0, 0)] [(1, 2, 3), (4, 5, 6)]).body.length = 15 * 1 ∧
    ¬ ([(0, 0, 0)] : List (Nat × Nat × Nat)).length =
        ([(1, 2, 3), (4, 5, 6)] : List (Nat × Nat × Nat)).length :=
  ⟨rfl, by decide, by decide⟩

/-- C9 (amended): the header always declares `len(vertices)` while the body
holds `min(len(vertices), len(colors))` records of 15 bytes; when the colors
sequence is shorter the file declares more vertices than its body contains,
and the declared count equals the number of records written exactly when the
colors sequence is at least as long as the vertices sequence (in particular
when the two lengths are equal). -/
theorem declared_vs_written_records (verts cols : List (Nat × Nat × Nat)) :
    (write_ply_with_colors verts cols).headerLines = plyHeaderLines verts.length ∧
    (write_ply_with_colors verts cols).body.length =
      15 * min verts.length cols.length ∧
    (cols.length < verts.length →
      (write_ply_with_colors verts cols).body.length < 15 * verts.length) ∧
    ((write_ply_with_colors verts cols).body.length = 15 * verts.length ↔
      verts.length ≤ cols.length) := by
  have hb : (write_ply_with_colors verts cols).body.length =
      15 * min verts.length cols.length := by
    show ((verts.zip cols).flatMap encRecord).length = 15 * min verts.length cols.length
    rw [flatMap_encRecord_length, List.length_zip]
  refine ⟨rfl, hb, ?_, ?_⟩
  · intro h
    rw [hb]
    omega
  · rw [hb]
    omega

/-- C9 witness: one vertex and no colors — the body is shorter than one
record per declared vertex. -/
theorem declared_vs_written_records_example :
    (write_ply_with_colors [(0, 0, 0)] []).body.length < 15 * 1 :=
  (declared_vs_written_records [(0, 0, 0)] []).2.2.1 (by decide)

/-! ### Helper lemmas for the exporter claims -/

theorem depth_to_point_cloud_length (depth : List (List ℚ)) (intr : Mat3)
    (cs : ColorSource) (vf : Option (List (List RGB))) (scale : ℚ) :
    (depth_to_point_cloud depth intr cs vf scale).1.length =
      (gridPixels depth).countP (fun p => decide (0 < p.2.2)) := by
  simp only [depth_to_point_cloud]
  by_cases h : ((gridPixels depth).filter (fun p => decide (0 < p.2.2))).isEmpty
  · simp [h, List.isEmpty_iff.1 h, List.countP_eq_length_filter]
  · simp [h, List.countP_eq_length_filter]

theorem countP_all_eq_length {α : Type} (l : List α) (p : α → Bool)
    (h : ∀ a ∈ l, p a = true) : l.countP p = l.length := by
  induction l with
  | nil => rfl
  | cons a as ih =>
    rw [List.countP_cons, ih (fun x hx => h x (List.mem_cons_of_mem _ hx)),
      h a (List.mem_cons_self _ _)]
    simp

theorem countP_all_eq_zero {α : Type} (l : List α) (p : α → Bool)
    (h : ∀ a ∈ l, p a = false) : l.countP p = 0 := by
  induction l with
  | nil => rfl
  | cons a as ih =>
    rw [List.countP_cons, ih (fun x hx => h x (List.mem_cons_of_mem _ hx)),
      h a (List.mem_cons_self _ _)]
    simp

theorem countP_ext {α : Type} (l : List α) (p q : α → Bool)
    (h : ∀ a ∈ l, p a = q a) : l.countP p = l.countP q := by
  induction l with
  | nil => rfl
  | cons a as ih =>
    rw [List.countP_cons, List.countP_cons,
      ih (fun x hx => h x (List.mem_cons_of_mem _ hx)), h a (List.mem_cons_self _ _)]

theorem countP_filterMap_guard {α : Type} (l : List α) (g : α → Option Event)
    (pb : Event → Bool) (hg : ∀ a e, g a = some e → pb e = true) :
    (l.filterMap g).countP pb = l.countP (fun a => (g a).isSome) := by
  induction l with
  | nil => rfl
  | cons a as ih =>
    rw [List.filterMap_cons]
    cases hga : g a with
    | none => simp [List.countP_cons, hga, ih]
    | some e => simp [List.countP_cons, hga, ih, hg a e hga]

theorem trajEvents_all_traj (ds : Dataset) (cs : ColorSource) (scale : ℚ) :
    ∀ e ∈ trajEvents ds cs scale, Event.isTrajWrite e = true := by
  intro e he
  rw [trajEvents] at he
  rcases hc : ds.coords with _ | coords
  · rw [hc] at he
    simp at he
  · rw [hc] at he
    simp only [List.mem_map] at he
    obtain ⟨t, _, rfl⟩ := he
    rfl

theorem trajEvents_all_not_dense (ds : Dataset) (cs : ColorSource) (scale : ℚ) :
    ∀ e ∈ trajEvents ds cs scale, Event.isDenseWrite e = false := by
  intro e he
  rw [trajEvents] at he
  rcases hc : ds.coords with _ | coords
  · rw [hc] at he
    simp at he
  · rw [hc] at he
    simp only [List.mem_map] at he
    obtain ⟨t, _, rfl⟩ := he
    rfl

theorem trajEvents_length (ds : Dataset) (cs : ColorSource) (scale : ℚ)
    (coordsArr : List (List PointQ)) (h : ds.coords = some coordsArr) :
    (trajEvents ds cs scale).length = numFrames ds := by
  rw [trajEvents, h]
  simp

theorem denseEvents_all_not_traj (ds : Dataset) (cs : ColorSource) (scale : ℚ) :
    ∀ e ∈ denseEvents ds cs scale, Event.isTrajWrite e = false := by
  intro e he
  rw [denseEvents] at he
  rcases hd : ds.depths with _ | depthArr
  · rw [hd] at he
    simp at he
  · rw [hd] at he
    simp only [List.mem_filterMap] at he
    obtain ⟨t, _, hgt⟩ := he
    split at hgt
    · injection hgt with h2
      rw [← h2]
      rfl
    · simp at hgt

theorem isSome_guard {c : Prop} [Decidable c] (x : Event) :
    (if c then some x else none).isSome = decide c := by
  by_cases h : c <;> simp [h]

theorem denseEvents_count (ds : Dataset) (cs : ColorSource) (scale : ℚ)
    (depthArr : List (List (List ℚ))) (h : ds.depths = some depthArr) :
    (denseEvents ds cs scale).countP Event.isDenseWrite =
      (List.range depthArr.length).countP
        (fun t => decide (0 < (gridPixels (depthArr.getD t [])).countP
          (fun p => decide (0 < p.2.2)))) := by
  rw [denseEvents, h]
  rw [countP_filterMap_guard]
  · apply countP_ext
    intro t _
    simp only [isSome_guard, depth_to_point_cloud_length]
  · intro a e hae
    dsimp only at hae
    split at hae
    · injection hae with h2
      rw [← h2]
      rfl
    · simp at hae

/-! ### Claim C4: per-frame files for empty reconstructions -/

/-- C4 counterexample: a one-frame dataset whose single depth frame has no
strictly-positive pixel produces NO dense point-cloud file at all (the write
is guarded by `len(vertices) > 0`), so the number of dense-mode files (0)
differs from the total frame count (1) and no header-only file exists. -/
theorem empty_dense_frame_skipped :
    (export_ply_sequence ⟨none, none, some [[[0]]], none, none⟩ 30 1 .white).events.countP
        Event.isDenseWrite = 0 ∧
      numFrames ⟨none, none, some [[[0]]], none, none⟩ = 1 := by
  constructor
  · norm_num [export_ply_sequence, trajEvents, denseEvents, numFrames, videoColors,
      depth_to_point_cloud, gridPixels, selectIntr, List.countP, List.countP.go,
      Event.isDenseWrite]
  · rfl

/-- C4 (amended): trajectory mode writes exactly one file per frame — `T` in
total, including header-only files for frames whose point set is empty — but
dense mode writes a file only for frames whose reconstruction is non-empty:
the number of dense-mode files equals the number of frames having at least
one strictly-positive depth pixel, and a frame with zero valid pixels is
silently skipped (never an error). -/
theorem files_written_counts (ds : Dataset) (fps : Nat) (scale : ℚ) (cs : ColorSource) :
    (∀ coordsArr, ds.coords = some coordsArr →
      (export_ply_sequence ds fps scale cs).events.countP Event.isTrajWrite =
        numFrames ds) ∧
    (∀ depthArr, ds.depths = some depthArr →
      (export_ply_sequence ds fps scale cs).events.countP Event.isDenseWrite =
        (List.range depthArr.length).countP
          (fun t => decide (0 < (gridPixels (depthArr.getD t [])).countP
            (fun p => decide (0 < p.2.2))))) := by
  constructor
  · intro coordsArr hc
    rcases hd : ds.depths with _ | depthArr <;>
    · simp only [export_ply_sequence, hd, hc, List.countP_append, List.countP_cons,
        List.countP_nil]
      rw [countP_all_eq_length _ _ (trajEvents_all_traj ds cs scale),
        trajEvents_length ds cs scale coordsArr hc,
        countP_all_eq_zero _ _ (denseEvents_all_not_traj ds cs scale)]
      simp [Event.isTrajWrite]
  · intro depthArr hd
    rcases hc : ds.coords with _ | coordsArr <;>
    · simp only [export_ply_sequence, hd, hc, List.countP_append, List.countP_cons,
        List.countP_nil]
      rw [countP_all_eq_zero _ _ (trajEvents_all_not_dense ds cs scale),
        denseEvents_count ds cs scale depthArr hd]
      simp [Event.isDenseWrite]

/-- C4 witness: one trajectory frame plus one dense frame with a single valid
pixel — one file of each kind. -/
theorem files_written_counts_example :
    (export_ply_sequence ⟨some [[(1, 1, 1)]], none, some [[[1]]], none, none⟩
        30 1 .white).events.countP Event.isTrajWrite =
      numFrames ⟨some [[(1, 1, 1)]], none, some [[[1]]], none, none⟩ ∧
    (export_ply_sequence ⟨some [[(1, 1, 1)]], none, some [[[1]]], none, none⟩
        30 1 .white).events.countP Event.isDenseWrite =
      (List.range 1).countP
        (fun t => decide (0 < (gridPixels (([[[1]]] :
            List (List (List ℚ))).getD t [])).countP (fun p => decide (0 < p.2.2)))) :=
  ⟨(files_written_counts _ 30 1 .white).1 [[(1, 1, 1)]] rfl,
   (files_written_counts _ 30 1 .white).2 [[[1]]] rfl⟩

/-! ### Claim C5: per-frame intrinsics -/

/-- C5 evidence (code bug): with a stack of two distinct per-frame intrinsics
matrices (`T = 2 > 1`) and two one-pixel depth frames of depth 2, the dense
reconstruction of frame 1 unprojects with `intrinsics[0]` (the default
matrix, giving the point `(-1, -3/4, 2)`), not with frame 1's own matrix B
(which would give `(0, 0, 2)`): the source's selection expression
`intrinsics[0] if intrinsics.shape[0] == 1 else intrinsics[0]` yields
`intrinsics[0]` in both branches and is evaluated once, outside the frame
loop. -/
theorem per_frame_intrinsics_ignored :
    (export_ply_sequence
        ⟨none, none, some [[[2]], [[2]]],
          some (.perFrame [defaultIntrinsics, ⟨512, 0, 0, 0, 512, 0, 0, 0, 1⟩]), none⟩
        30 1 .white).events =
      [Event.mkdirTrajectory, Event.mkdirPointcloud,
       Event.writePC 0 [(-1, -3 / 4, 2)] [(255, 255, 255)],
       Event.writePC 1 [(-1, -3 / 4, 2)] [(255, 255, 255)],
       Event.writeMetadata 30 1 .white 2 none] ∧
    ((-1 : ℚ), (-3 / 4 : ℚ), (2 : ℚ)) ≠
      scaleP 1 (unproject ⟨512, 0, 0, 0, 512, 0, 0, 0, 1⟩ 0 0 2) := by
  constructor
  · norm_num [export_ply_sequence, trajEvents, denseEvents, numFrames, videoColors,
      depth_to_point_cloud, gridPixels, selectIntr, defaultIntrinsics, unproject, scaleP,
      List.range_succ, List.filterMap]
  · norm_num [scaleP, unproject]

/-! ### Claim C6: colormap extremes -/

/-- C6 counterexample: at `normalized_depth = 0` the jet colormap of
export_ply.py produces `(0, 0, 127)` — no channel is fully saturated (255),
refuting "at least one fully-saturated channel" at that extreme (the peak
channel is `clip(1.5 - 4*0.25, 0, 1) = 0.5`, i.e. 127 after the uint8
cast). -/
theorem jet_extremes_not_saturated :
    ¬ ((jetRGB 0).1 = 255 ∨ (jetRGB 0).2.1 = 255 ∨ (jetRGB 0).2.2 = 255) := by
  have h0 : jetRGB 0 = (0, 0, 127) := by
    norm_num [jetRGB, clipQ, u8, npAbs]
    decide
  rw [h0]
  decide

/-- C6 (amended): at `normalized_depth = 0` and `1` the jet colormap
produces `(0, 0, 127)` and `(127, 0, 0)` respectively: each extreme has at
least one fully-zero channel but no fully-saturated channel — the largest
channel value is 127 (half intensity), per the breakpoint formula
`clamp(1.5 - 4*|nd - bp|, 0, 1) * 255`.  The same colors arise from
`depth_to_color` at the extrema of a `[0, 1]` depth range. -/
theorem jet_extreme_values :
    jetRGB 0 = (0, 0, 127) ∧ jetRGB 1 = (127, 0, 0) ∧
      depth_to_color 0 0 1 = (0, 0, 127) ∧ depth_to_color 1 0 1 = (127, 0, 0) := by
  refine ⟨?_, ?_, ?_, ?_⟩
  · norm_num [jetRGB, clipQ, u8, npAbs]
    decide
  · norm_num [jetRGB, clipQ, u8, npAbs]
    decide
  · norm_num [depth_to_color, jetRGB, clipQ, u8, npAbs, epsQ]
    decide
  · norm_num [depth_to_color, jetRGB, clipQ, u8, npAbs, epsQ]
    decide

/-! ### Claim C7: dense reconstruction counting and unprojection -/

/-- C7: for every depth grid the dense reconstruction produces exactly one
output point per strictly-positive-depth pixel (so exactly as many points as
there are such pixels), each output point being the scaled pinhole
unprojection of one such pixel — the unprojection is never applied to a
pixel with depth `≤ 0` — and with intrinsics `fx = fy = 256, cx = 128,
cy = 96` the pixel `(128, 96)` at depth `d` unprojects to `(0, 0, d)`. -/
theorem dense_count_and_unprojection :
    (∀ depth intr cs vf scale,
      (depth_to_point_cloud depth intr cs vf scale).1.length =
        (gridPixels depth).countP (fun p => decide (0 < p.2.2))) ∧
    (∀ depth intr cs vf scale,
      (depth_to_point_cloud depth intr cs vf scale).1 =
        ((gridPixels depth).filter (fun p => decide (0 < p.2.2))).map
          (fun p => scaleP scale (unproject intr (p.2.1 : ℚ) (p.1 : ℚ) p.2.2))) ∧
    (∀ d : ℚ, unproject defaultIntrinsics 128 96 d = (0, 0, d)) := by
  refine ⟨fun depth intr cs vf scale => depth_to_point_cloud_length depth intr cs vf scale,
    fun depth intr cs vf scale => ?_, fun d => ?_⟩
  · simp only [depth_to_point_cloud]
    by_cases h : ((gridPixels depth).filter (fun p => decide (0 < p.2.2))).isEmpty
    · rw [if_pos h, List.isEmpty_iff.1 h]
      simp
    · rw [if_neg h]
  · simp [unproject, defaultIntrinsics]

/-! ### Claim C8: fatal input error -/

/-- C8: `export_ply_sequence` raises its fatal input error exactly when both
the `coords` and the `depths` arrays are absent, and in that case it aborts
before any directory is created or file is written — the effect trace is
empty, so no partial output is left. -/
theorem export_fatal_iff_missing_inputs (ds : Dataset) (fps : Nat) (scale : ℚ)
    (cs : ColorSource) :
    ((export_ply_sequence ds fps scale cs).err ≠ none ↔
      ds.coords = none ∧ ds.depths = none) ∧
    ((export_ply_sequence ds fps scale cs).err ≠ none →
      (export_ply_sequence ds fps scale cs).events = []) := by
  rcases hd : ds.depths with _ | depthArr <;> rcases hc : ds.coords with _ | coordsArr <;>
    simp [export_ply_sequence, hd, hc]

/-- C8 witness: the empty dataset errors out with an empty effect trace. -/
theorem export_fatal_missing_inputs_example :
    (export_ply_sequence ⟨none, none, none, none, none⟩ 30 1 .white).events = [] :=
  (export_fatal_iff_missing_inputs ⟨none, none, none, none, none⟩ 30 1 .white).2
    ((export_fatal_iff_missing_inputs ⟨none, none, none, none, none⟩ 30 1 .white).1.mpr
      ⟨rfl, rfl⟩)

/-! ### Claim C10: visibility mask length gate -/

/-- C10: in trajectory mode, when a visibility array is present but frame
`t`'s mask length differs from the frame's point count, the mask is silently
ignored — points and colors pass through unchanged and no error is raised;
when the lengths match, points and colors are filtered by `mask > 0.5`. -/
theorem visibility_mask_length_gate (vs : List (List ℚ)) (t : Nat)
    (verts : List PointQ) (cols : List RGB) :
    ((vs.getD t []).length ≠ verts.length →
      applyVisib (some vs) t verts cols = (verts, cols)) ∧
    ((vs.getD t []).length = verts.length →
      applyVisib (some vs) t verts cols =
        ((verts.zip ((vs.getD t []).map (fun q => decide ((1 : ℚ) / 2 < q)))).filterMap
            (fun vb => if vb.2 then some vb.1 else none),
         (cols.zip ((vs.getD t []).map (fun q => decide ((1 : ℚ) / 2 < q)))).filterMap
            (fun cb => if cb.2 then some cb.1 else none))) := by
  constructor
  · intro h
    rw [applyVisib]
    rw [if_neg (by simpa using h)]
  · intro h
    rw [applyVisib]
    rw [if_pos (by simpa using h)]

/-- C10 witness: a two-entry mask over a one-point frame is ignored. -/
theorem visibility_mask_length_gate_example :
    applyVisib (some [[(1 : ℚ), 1]]) 0 [((1 : ℚ), 2, 3)] [(7, 8, 9)] =
      ([((1 : ℚ), 2, 3)], [(7, 8, 9)]) :=
  (visibility_mask_length_gate [[(1 : ℚ), 1]] 0 [((1 : ℚ), 2, 3)] [(7, 8, 9)]).1
    (by decide)

end SpaT2
